import Mathlib

/-!
A shallow embedding of `calendar.py`: proleptic Julian and Gregorian calendar
dates, conversion to and from Julian day numbers, the successor operation,
month lengths, leap-year rules and the comparison operators.

Integer arithmetic: every `//` and `%` in the Python source has a positive
constant divisor (4, 100, 400, 365, 1461, 36524, 146097).  For a positive
divisor, Python floor division and floor modulus coincide with Lean's
Euclidean `Int` division `/` and `Int` modulus `%`, which is what this file
uses throughout.

Error paths (`raise ValueError`) are modelled with `Option` where a claim is
about the error path itself (`length_of_month`, the date constructor
`mk_date`); operations that the source only ever applies to already-validated
dates (`to_julian_day_number`, `__next__`, the comparisons) are modelled as
total functions and every theorem about them carries the corresponding
validity hypothesis.
-/

/-- The two concrete calendar classes of the source:  `JulianCalendarDate`
and `GregorianCalendarDate`.  Each supplies a leap-year rule, a period table
and an epoch offset; everything else is shared (`AbstractCalendarDate`). -/
inductive CalendarKind where
  | julian
  | gregorian
deriving DecidableEq

/-- `is_divisible_by(num, divider)`: `num % divider == 0`. -/
def is_divisible_by (num divider : Int) : Bool :=
  num % divider == 0

/-- `normalize_year(year)` for `year ≠ 0`: BCE years are incremented by one,
making the year sequence continuous.  The source raises `ValueError` on
`year == 0`; every call site in the source is guarded by `year != 0`, and
every theorem below that involves `normalize_year` carries that guard. -/
def normalize_year (year : Int) : Int :=
  if year > 0 then year else year + 1

/-- `JulianCalendarDate._leapyear_rule` / `GregorianCalendarDate._leapyear_rule`,
on a normalized year.  Python `a ^ b ^ c` on booleans is left-associated
exclusive or. -/
def leapyear_rule : CalendarKind → Int → Bool
  | .julian, normalized_year => is_divisible_by normalized_year 4
  | .gregorian, normalized_year =>
      ((is_divisible_by normalized_year 4).xor
        (is_divisible_by normalized_year 100)).xor
        (is_divisible_by normalized_year 400)

/-- `JulianCalendarDate._year_julian_day_number` /
`GregorianCalendarDate._year_julian_day_number`: the Julian day number of
March 1st of a normalized year. -/
def year_julian_day_number : CalendarKind → Int → Int
  | .julian, normalized_year =>
      1721118 + (normalized_year * 365) + (normalized_year / 4)
  | .gregorian, normalized_year =>
      1721120 + (normalized_year * 365) + (normalized_year / 4)
        - (normalized_year / 100) + (normalized_year / 400)

/-- `_leapyear_periods`: rows of (period length in days, years per period,
optional maximum number of periods). -/
def leapyear_periods : CalendarKind → List (Int × Int × Option Int)
  | .julian => [(1461, 4, none), (365, 1, some 3)]
  | .gregorian =>
      [(146097, 400, none), (36524, 100, some 3), (1461, 4, none), (365, 1, some 3)]

/-- `AbstractCalendarDate._days_before_month`: days before a month, for a
12-month year starting in March.  The source indexes the 12-entry tuple only
with indices 0..11; the final match arm returns the last entry. -/
def days_before_month : Int → Int
  | 0 => 0
  | 1 => 31
  | 2 => 61
  | 3 => 92
  | 4 => 122
  | 5 => 153
  | 6 => 184
  | 7 => 214
  | 8 => 245
  | 9 => 275
  | 10 => 306
  | _ => 337

/-- `AbstractCalendarDate.is_leapyear(year)` for `year ≠ 0` (the source
raises on `year == 0`, via `normalize_year`). -/
def is_leapyear (cal : CalendarKind) (year : Int) : Bool :=
  leapyear_rule cal (normalize_year year)

/-- The value returned by `length_of_month` on the valid region
(`year ≠ 0`, `1 ≤ month ≤ 12`). -/
def month_length (cal : CalendarKind) (year month : Int) : Int :=
  if month = 2 then (if is_leapyear cal year then 29 else 28)
  else if month = 4 ∨ month = 6 ∨ month = 9 ∨ month = 11 then 30 else 31

/-- `AbstractCalendarDate.length_of_month(year, month)`: raises
(`none`) exactly when `year == 0` or `month` is outside 1..12. -/
def length_of_month (cal : CalendarKind) (year month : Int) : Option Int :=
  if year ≠ 0 ∧ 1 ≤ month ∧ month ≤ 12 then some (month_length cal year month)
  else none

/-- A calendar date value: the concrete class together with the three stored
fields `year`, `month`, `day`. -/
structure CalendarDate where
  cal : CalendarKind
  year : Int
  month : Int
  day : Int
deriving DecidableEq

/-- The validity condition checked by `AbstractCalendarDate.__init__`:
`(year != 0) and (1 <= month <= 12) and (1 <= day <= length_of_month(year, month))`.
Python's chained `and`/comparisons call `length_of_month` only after
`year != 0`, `1 <= month <= 12` and `1 <= day` all hold, so the call never
raises and returns `month_length`. -/
def valid_date (cal : CalendarKind) (year month day : Int) : Bool :=
  year ≠ 0 ∧ 1 ≤ month ∧ month ≤ 12 ∧ 1 ≤ day ∧ day ≤ month_length cal year month

/-- Validity of a `CalendarDate` value: the class invariant established by
`__init__`. -/
def Valid (d : CalendarDate) : Prop :=
  valid_date d.cal d.year d.month d.day = true

instance (d : CalendarDate) : Decidable (Valid d) := by
  unfold Valid; infer_instance

/-- The constructor `JulianCalendarDate(year, month, day)` /
`GregorianCalendarDate(year, month, day)`: returns the date, or `none` where
the source raises `ValueError("Attempt to initialize an invalid date.")`. -/
def mk_date (cal : CalendarKind) (year month day : Int) : Option CalendarDate :=
  if valid_date cal year month day then some ⟨cal, year, month, day⟩ else none

/-- `AbstractCalendarDate.to_julian_day_number`.  The source destructures
`(year, month, day)`, normalizes the year, shifts the month so the year
starts in March, and adds the epoch offset, the days-before-month entry and
the zero-based day. -/
def to_julian_day_number (d : CalendarDate) : Int :=
  let normalized_year := normalize_year d.year
  let month := d.month - 3
  let normalized_year := if month < 0 then normalized_year - 1 else normalized_year
  let month := if month < 0 then month + 12 else month
  let day := d.day - 1
  year_julian_day_number d.cal normalized_year + days_before_month month + day

/-- The clamping step of the period-reduction loop: `periods` is capped at
`max_periods` when a maximum is given. -/
def clamp_periods : Option Int → Int → Int
  | some max_p, periods => if periods > max_p then max_p else periods
  | none, periods => periods

/-- The period-reduction loop of `from_julian_day_number`: fold over the
period table, carrying `(year, julian_day_number)`.  Each row computes
`periods = julian_day_number // period_days`, clamps it, accumulates
`year += periods * period_years` and subtracts `periods * period_days`. -/
def reduce_periods : List (Int × Int × Option Int) → Int × Int → Int × Int
  | [], state => state
  | (period_days, period_years, max_periods) :: rest, (year, julian_day_number) =>
      reduce_periods rest
        (year + clamp_periods max_periods (julian_day_number / period_days) * period_years,
         julian_day_number - clamp_periods max_periods (julian_day_number / period_days) * period_days)

/-- The month-scan loop of `from_julian_day_number`, unrolled: the first
`month` in 0..11 with `month == 11 or jdn < days_before_month[month + 1]`. -/
def find_month (julian_day_number : Int) : Int :=
  if julian_day_number < 31 then 0
  else if julian_day_number < 61 then 1
  else if julian_day_number < 92 then 2
  else if julian_day_number < 122 then 3
  else if julian_day_number < 153 then 4
  else if julian_day_number < 184 then 5
  else if julian_day_number < 214 then 6
  else if julian_day_number < 245 then 7
  else if julian_day_number < 275 then 8
  else if julian_day_number < 306 then 9
  else if julian_day_number < 337 then 10
  else 11

/-- `AbstractCalendarDate.from_julian_day_number(julian_day_number)`:
rebase to the epoch, peel off leap-year periods, scan for the month, shift
the month back from March-first to January-first, and un-normalize the year.
The source finishes with `cls(year, month, day)`, whose validation is proved
to pass for every integer input (claim C5). -/
def from_julian_day_number (cal : CalendarKind) (julian_day_number : Int) : CalendarDate :=
  let j := julian_day_number - year_julian_day_number cal 0
  let (year, j) := reduce_periods (leapyear_periods cal) (0, j)
  let month := find_month j
  let j := j - days_before_month month
  let day := j + 1
  let month := month + 3
  let (year, month) := if month > 12 then (year + 1, month - 12) else (year, month)
  let year := if year ≤ 0 then year - 1 else year
  ⟨cal, year, month, day⟩

/-- `AbstractCalendarDate.__next__`: the next calendar day, skipping over
year zero.  `self.length_of_month(year, month)` never raises on a valid
date and equals `month_length`. -/
def next_date (d : CalendarDate) : CalendarDate :=
  let (year, month, day) := (d.year, d.month, d.day)
  let (year, month, day) :=
    if day = month_length d.cal year month then
      let day := 0
      let (year, month) :=
        if month = 12 then
          let month := 0
          let year := if year = -1 then 0 else year
          (year + 1, month)
        else (year, month)
      (year, month + 1, day)
    else (year, month, day)
  ⟨d.cal, year, month, day + 1⟩

/-- `AbstractCalendarDate.__lt__`. -/
def date_lt (a b : CalendarDate) : Bool :=
  to_julian_day_number a < to_julian_day_number b

/-- `AbstractCalendarDate.__le__`. -/
def date_le (a b : CalendarDate) : Bool :=
  to_julian_day_number a ≤ to_julian_day_number b

/-- `AbstractCalendarDate.__eq__`. -/
def date_eq (a b : CalendarDate) : Bool :=
  to_julian_day_number a == to_julian_day_number b

/-- `AbstractCalendarDate.__ne__`. -/
def date_ne (a b : CalendarDate) : Bool :=
  to_julian_day_number a != to_julian_day_number b

/-- `AbstractCalendarDate.__gt__`. -/
def date_gt (a b : CalendarDate) : Bool :=
  to_julian_day_number a > to_julian_day_number b

/-- `AbstractCalendarDate.__ge__`. -/
def date_ge (a b : CalendarDate) : Bool :=
  to_julian_day_number a ≥ to_julian_day_number b

example : to_julian_day_number ⟨.julian, -4713, 1, 1⟩ = 0 := by decide
example : to_julian_day_number ⟨.gregorian, -4714, 11, 24⟩ = 0 := by decide
example : from_julian_day_number .julian 0 = ⟨.julian, -4713, 1, 1⟩ := by decide
example : from_julian_day_number .gregorian 0 = ⟨.gregorian, -4714, 11, 24⟩ := by decide
example : to_julian_day_number ⟨.julian, 1752, 9, 2⟩ =
    to_julian_day_number ⟨.gregorian, 1752, 9, 13⟩ := by decide
example : next_date ⟨.julian, -1, 12, 31⟩ = ⟨.julian, 1, 1, 1⟩ := by decide
lemma is_divisible_by_eq (num divider : Int) :
    is_divisible_by num divider = decide (num % divider = 0) := by
  unfold is_divisible_by
  by_cases h : num % divider = 0 <;> simp [h]

lemma julian_leap_iff (y : Int) : leapyear_rule .julian y = true ↔ y % 4 = 0 := by
  simp [leapyear_rule, is_divisible_by]

lemma greg_leap_iff (y : Int) :
    leapyear_rule .gregorian y = true ↔ ((y % 4 = 0 ∧ ¬ y % 100 = 0) ∨ y % 400 = 0) := by
  simp only [leapyear_rule, is_divisible_by_eq]
  by_cases h4 : y % 4 = 0 <;> by_cases h100 : y % 100 = 0 <;> by_cases h400 : y % 400 = 0 <;>
    simp [h4, h100, h400] <;> omega

lemma reduce_step {pd py : Int} {mp : Option Int} {T : List (Int × Int × Option Int)}
    {year jdn year' jdn' : Int}
    (h1 : year + clamp_periods mp (jdn / pd) * py = year')
    (h2 : jdn - clamp_periods mp (jdn / pd) * pd = jdn') :
    reduce_periods ((pd, py, mp) :: T) (year, jdn) = reduce_periods T (year', jdn') := by
  rw [reduce_periods, h1, h2]

lemma reduce_spec_julian (n : Int) :
    ∃ y r, reduce_periods (leapyear_periods .julian) (0, n) = (y, r) ∧
      0 ≤ r ∧ r ≤ 365 ∧ (r = 365 → leapyear_rule .julian (y + 1) = true) ∧
      year_julian_day_number .julian y + r = year_julian_day_number .julian 0 + n := by
  refine ⟨(reduce_periods (leapyear_periods .julian) (0, n)).1,
    (reduce_periods (leapyear_periods .julian) (0, n)).2, rfl, ?_⟩
  simp only [leapyear_periods, reduce_periods, clamp_periods, year_julian_day_number,
    julian_leap_iff]
  split_ifs <;> omega

lemma reduce_spec_greg (n : Int) :
    ∃ y r, reduce_periods (leapyear_periods .gregorian) (0, n) = (y, r) ∧
      0 ≤ r ∧ r ≤ 365 ∧ (r = 365 → leapyear_rule .gregorian (y + 1) = true) ∧
      year_julian_day_number .gregorian y + r = year_julian_day_number .gregorian 0 + n := by
  have hT : leapyear_periods .gregorian =
      [(146097, 400, none), (36524, 100, some 3), (1461, 4, none), (365, 1, some 3)] := rfl
  obtain ⟨q1, r1, rfl, hr10, hr11⟩ : ∃ q r, n = 146097 * q + r ∧ 0 ≤ r ∧ r < 146097 :=
    ⟨n / 146097, n % 146097, by omega, by omega, by omega⟩
  have s1 : reduce_periods (leapyear_periods .gregorian) (0, 146097 * q1 + r1)
      = reduce_periods [(36524, 100, some 3), (1461, 4, none), (365, 1, some 3)]
          (q1 * 400, r1) := by
    rw [hT]
    exact reduce_step (by simp only [clamp_periods]; first | (split_ifs <;> omega) | omega) (by simp only [clamp_periods]; first | (split_ifs <;> omega) | omega)
  by_cases hc1 : r1 / 36524 > 3
  · -- the fourth 100-year block: r1 = 146096, the clamped tail is concrete
    have hr1e : r1 = 146096 := by omega
    subst hr1e
    have s2 : reduce_periods [(36524, 100, some 3), (1461, 4, none), (365, 1, some 3)]
        ((q1 : Int) * 400, 146096)
        = reduce_periods [(1461, 4, none), (365, 1, some 3)] (q1 * 400 + 300, 36524) :=
      reduce_step (by simp only [clamp_periods]; first | (split_ifs <;> omega) | omega) (by simp only [clamp_periods]; first | (split_ifs <;> omega) | omega)
    have s3 : reduce_periods [(1461, 4, none), (365, 1, some 3)] ((q1 : Int) * 400 + 300, 36524)
        = reduce_periods [(365, 1, some 3)] (q1 * 400 + 396, 1460) :=
      reduce_step (by simp only [clamp_periods]; first | (split_ifs <;> omega) | omega) (by simp only [clamp_periods]; first | (split_ifs <;> omega) | omega)
    have s4 : reduce_periods [(365, 1, some 3)] ((q1 : Int) * 400 + 396, 1460)
        = reduce_periods [] (q1 * 400 + 399, 365) :=
      reduce_step (by simp only [clamp_periods]; first | (split_ifs <;> omega) | omega) (by simp only [clamp_periods]; first | (split_ifs <;> omega) | omega)
    refine ⟨q1 * 400 + 399, 365, by rw [s1, s2, s3, s4]; rfl, by norm_num, by norm_num, ?_, ?_⟩
    · intro _
      rw [greg_leap_iff]
      right
      omega
    · simp only [year_julian_day_number]
      have d4 : (q1 * 400 + 399) / 4 = q1 * 100 + 99 := by omega
      have d100 : (q1 * 400 + 399) / 100 = q1 * 4 + 3 := by omega
      have d400 : (q1 * 400 + 399) / 400 = q1 := by omega
      omega
  · obtain ⟨q2, r2, rfl, hr20, hr21⟩ : ∃ q r, r1 = 36524 * q + r ∧ 0 ≤ r ∧ r < 36524 :=
      ⟨r1 / 36524, r1 % 36524, by omega, by omega, by omega⟩
    have hq2 : 0 ≤ q2 ∧ q2 ≤ 3 := by omega
    have s2 : reduce_periods [(36524, 100, some 3), (1461, 4, none), (365, 1, some 3)]
        ((q1 : Int) * 400, 36524 * q2 + r2)
        = reduce_periods [(1461, 4, none), (365, 1, some 3)] (q1 * 400 + q2 * 100, r2) :=
      reduce_step (by simp only [clamp_periods]; first | (split_ifs <;> omega) | omega) (by simp only [clamp_periods]; first | (split_ifs <;> omega) | omega)
    obtain ⟨q3, r3, rfl, hr30, hr31⟩ : ∃ q r, r2 = 1461 * q + r ∧ 0 ≤ r ∧ r < 1461 :=
      ⟨r2 / 1461, r2 % 1461, by omega, by omega, by omega⟩
    have hq3 : 0 ≤ q3 ∧ q3 ≤ 24 := by omega
    have s3 : reduce_periods [(1461, 4, none), (365, 1, some 3)]
        ((q1 : Int) * 400 + q2 * 100, 1461 * q3 + r3)
        = reduce_periods [(365, 1, some 3)] (q1 * 400 + q2 * 100 + q3 * 4, r3) :=
      reduce_step (by simp only [clamp_periods]; first | (split_ifs <;> omega) | omega) (by simp only [clamp_periods]; first | (split_ifs <;> omega) | omega)
    by_cases hc4 : r3 / 365 > 3
    · -- the fourth 1-year block: r3 = 1460, day 366 of the March-year
      have hr3e : r3 = 1460 := by omega
      subst hr3e
      have hq3' : q3 ≤ 23 := by omega
      have s4 : reduce_periods [(365, 1, some 3)]
          ((q1 : Int) * 400 + q2 * 100 + q3 * 4, 1460)
          = reduce_periods [] (q1 * 400 + q2 * 100 + q3 * 4 + 3, 365) :=
        reduce_step (by simp only [clamp_periods]; first | (split_ifs <;> omega) | omega)
          (by simp only [clamp_periods]; first | (split_ifs <;> omega) | omega)
      refine ⟨q1 * 400 + q2 * 100 + q3 * 4 + 3, 365, by rw [s1, s2, s3, s4]; rfl,
        by norm_num, by norm_num, ?_, ?_⟩
      · intro _
        rw [greg_leap_iff]
        left
        omega
      · simp only [year_julian_day_number]
        have d4 : (q1 * 400 + q2 * 100 + q3 * 4 + 3) / 4 = q1 * 100 + q2 * 25 + q3 := by omega
        have d100 : (q1 * 400 + q2 * 100 + q3 * 4 + 3) / 100 = q1 * 4 + q2 := by omega
        have d400 : (q1 * 400 + q2 * 100 + q3 * 4 + 3) / 400 = q1 := by omega
        omega
    · obtain ⟨q4, r4, rfl, hr40, hr41⟩ : ∃ q r, r3 = 365 * q + r ∧ 0 ≤ r ∧ r < 365 :=
        ⟨r3 / 365, r3 % 365, by omega, by omega, by omega⟩
      have hq4 : 0 ≤ q4 ∧ q4 ≤ 3 := by omega
      have s4 : reduce_periods [(365, 1, some 3)]
          ((q1 : Int) * 400 + q2 * 100 + q3 * 4, 365 * q4 + r4)
          = reduce_periods [] (q1 * 400 + q2 * 100 + q3 * 4 + q4 * 1, r4) :=
        reduce_step (by simp only [clamp_periods]; first | (split_ifs <;> omega) | omega) (by simp only [clamp_periods]; first | (split_ifs <;> omega) | omega)
      refine ⟨q1 * 400 + q2 * 100 + q3 * 4 + q4 * 1, r4, by rw [s1, s2, s3, s4]; rfl,
        by omega, by omega, by omega, ?_⟩
      simp only [year_julian_day_number]
      have d4 : (q1 * 400 + q2 * 100 + q3 * 4 + q4 * 1) / 4 = q1 * 100 + q2 * 25 + q3 := by
        omega
      have d100 : (q1 * 400 + q2 * 100 + q3 * 4 + q4 * 1) / 100 = q1 * 4 + q2 := by omega
      have d400 : (q1 * 400 + q2 * 100 + q3 * 4 + q4 * 1) / 400 = q1 := by omega
      omega

lemma reduce_spec (cal : CalendarKind) (n : Int) :
    ∃ y r, reduce_periods (leapyear_periods cal) (0, n) = (y, r) ∧
      0 ≤ r ∧ r ≤ 365 ∧ (r = 365 → leapyear_rule cal (y + 1) = true) ∧
      year_julian_day_number cal y + r = year_julian_day_number cal 0 + n := by
  cases cal
  · exact reduce_spec_julian n
  · exact reduce_spec_greg n

/-- C10: for each calendar, the closed-form epoch offset is consistent with
the leap-year rule: March 1 of normalized year y+1 is 366 days after March 1
of normalized year y when y+1 is a leap year, and 365 days otherwise. -/
theorem year_offset_leap_consistent (cal : CalendarKind) (y : Int) :
    year_julian_day_number cal (y + 1) - year_julian_day_number cal y =
      if leapyear_rule cal (y + 1) then 366 else 365 := by
  cases cal
  · simp only [year_julian_day_number, julian_leap_iff]
    split_ifs <;> omega
  · simp only [year_julian_day_number, greg_leap_iff]
    split_ifs <;> omega

lemma yjdn_step (cal : CalendarKind) (y : Int) :
    year_julian_day_number cal y + 365 ≤ year_julian_day_number cal (y + 1) := by
  have h := year_offset_leap_consistent cal y
  split_ifs at h <;> omega

lemma yjdn_mono (cal : CalendarKind) (y y' : Int) (h : y ≤ y') :
    year_julian_day_number cal y ≤ year_julian_day_number cal y' := by
  refine Int.le_induction (P := fun n => year_julian_day_number cal y ≤ year_julian_day_number cal n)
    le_rfl ?_ y' h
  intro n _ ih
  have := yjdn_step cal n
  omega

lemma year_interval_unique (cal : CalendarKind) (y y' m : Int)
    (h1 : year_julian_day_number cal y ≤ m) (h2 : m < year_julian_day_number cal (y + 1))
    (h1' : year_julian_day_number cal y' ≤ m) (h2' : m < year_julian_day_number cal (y' + 1)) :
    y = y' := by
  by_contra hne
  rcases lt_or_gt_of_ne hne with h | h
  · have := yjdn_mono cal (y + 1) y' (by omega)
    omega
  · have := yjdn_mono cal (y' + 1) y (by omega)
    omega

lemma reduce_exact (cal : CalendarKind) (y off : Int) (h0 : 0 ≤ off)
    (hb : off < year_julian_day_number cal (y + 1) - year_julian_day_number cal y) :
    reduce_periods (leapyear_periods cal)
      (0, year_julian_day_number cal y + off - year_julian_day_number cal 0) = (y, off) := by
  obtain ⟨y', r, he, hr0, hr1, hleap, hsum⟩ :=
    reduce_spec cal (year_julian_day_number cal y + off - year_julian_day_number cal 0)
  have hru : r < year_julian_day_number cal (y' + 1) - year_julian_day_number cal y' := by
    have hc := year_offset_leap_consistent cal y'
    by_cases h365 : r = 365
    · rw [if_pos (hleap h365)] at hc
      omega
    · split_ifs at hc <;> omega
  have hy : y = y' :=
    year_interval_unique cal y y' (year_julian_day_number cal y + off)
      (by omega) (by omega) (by omega) (by omega)
  subst hy
  have hr : r = off := by omega
  subst hr
  exact he

lemma normalize_unnormalize (y : Int) :
    normalize_year (if y ≤ 0 then y - 1 else y) = y := by
  unfold normalize_year
  split_ifs <;> omega

lemma unnormalize_normalize (y : Int) (h : y ≠ 0) :
    (if normalize_year y ≤ 0 then normalize_year y - 1 else normalize_year y) = y := by
  unfold normalize_year
  split_ifs <;> omega

lemma find_month_eq (r k : Int)
    (h : (k = 0 ∧ 0 ≤ r ∧ r < 31) ∨ (k = 1 ∧ 31 ≤ r ∧ r < 61) ∨
      (k = 2 ∧ 61 ≤ r ∧ r < 92) ∨ (k = 3 ∧ 92 ≤ r ∧ r < 122) ∨
      (k = 4 ∧ 122 ≤ r ∧ r < 153) ∨ (k = 5 ∧ 153 ≤ r ∧ r < 184) ∨
      (k = 6 ∧ 184 ≤ r ∧ r < 214) ∨ (k = 7 ∧ 214 ≤ r ∧ r < 245) ∨
      (k = 8 ∧ 245 ≤ r ∧ r < 275) ∨ (k = 9 ∧ 275 ≤ r ∧ r < 306) ∨
      (k = 10 ∧ 306 ≤ r ∧ r < 337) ∨ (k = 11 ∧ 337 ≤ r)) :
    find_month r = k := by
  unfold find_month
  rcases h with ⟨rfl, h⟩ | ⟨rfl, h⟩ | ⟨rfl, h⟩ | ⟨rfl, h⟩ | ⟨rfl, h⟩ | ⟨rfl, h⟩ | ⟨rfl, h⟩ | ⟨rfl, h⟩ | ⟨rfl, h⟩ | ⟨rfl, h⟩ | ⟨rfl, h⟩ | ⟨rfl, h⟩
  · rw [if_pos (show r < 31 from by omega)]
  · rw [if_neg (show ¬(r < 31) from by omega), if_pos (show r < 61 from by omega)]
  · rw [if_neg (show ¬(r < 31) from by omega), if_neg (show ¬(r < 61) from by omega), if_pos (show r < 92 from by omega)]
  · rw [if_neg (show ¬(r < 31) from by omega), if_neg (show ¬(r < 61) from by omega), if_neg (show ¬(r < 92) from by omega), if_pos (show r < 122 from by omega)]
  · rw [if_neg (show ¬(r < 31) from by omega), if_neg (show ¬(r < 61) from by omega), if_neg (show ¬(r < 92) from by omega), if_neg (show ¬(r < 122) from by omega), if_pos (show r < 153 from by omega)]
  · rw [if_neg (show ¬(r < 31) from by omega), if_neg (show ¬(r < 61) from by omega), if_neg (show ¬(r < 92) from by omega), if_neg (show ¬(r < 122) from by omega), if_neg (show ¬(r < 153) from by omega), if_pos (show r < 184 from by omega)]
  · rw [if_neg (show ¬(r < 31) from by omega), if_neg (show ¬(r < 61) from by omega), if_neg (show ¬(r < 92) from by omega), if_neg (show ¬(r < 122) from by omega), if_neg (show ¬(r < 153) from by omega), if_neg (show ¬(r < 184) from by omega), if_pos (show r < 214 from by omega)]
  · rw [if_neg (show ¬(r < 31) from by omega), if_neg (show ¬(r < 61) from by omega), if_neg (show ¬(r < 92) from by omega), if_neg (show ¬(r < 122) from by omega), if_neg (show ¬(r < 153) from by omega), if_neg (show ¬(r < 184) from by omega), if_neg (show ¬(r < 214) from by omega), if_pos (show r < 245 from by omega)]
  · rw [if_neg (show ¬(r < 31) from by omega), if_neg (show ¬(r < 61) from by omega), if_neg (show ¬(r < 92) from by omega), if_neg (show ¬(r < 122) from by omega), if_neg (show ¬(r < 153) from by omega), if_neg (show ¬(r < 184) from by omega), if_neg (show ¬(r < 214) from by omega), if_neg (show ¬(r < 245) from by omega), if_pos (show r < 275 from by omega)]
  · rw [if_neg (show ¬(r < 31) from by omega), if_neg (show ¬(r < 61) from by omega), if_neg (show ¬(r < 92) from by omega), if_neg (show ¬(r < 122) from by omega), if_neg (show ¬(r < 153) from by omega), if_neg (show ¬(r < 184) from by omega), if_neg (show ¬(r < 214) from by omega), if_neg (show ¬(r < 245) from by omega), if_neg (show ¬(r < 275) from by omega), if_pos (show r < 306 from by omega)]
  · rw [if_neg (show ¬(r < 31) from by omega), if_neg (show ¬(r < 61) from by omega), if_neg (show ¬(r < 92) from by omega), if_neg (show ¬(r < 122) from by omega), if_neg (show ¬(r < 153) from by omega), if_neg (show ¬(r < 184) from by omega), if_neg (show ¬(r < 214) from by omega), if_neg (show ¬(r < 245) from by omega), if_neg (show ¬(r < 275) from by omega), if_neg (show ¬(r < 306) from by omega), if_pos (show r < 337 from by omega)]
  · rw [if_neg (show ¬(r < 31) from by omega), if_neg (show ¬(r < 61) from by omega), if_neg (show ¬(r < 92) from by omega), if_neg (show ¬(r < 122) from by omega), if_neg (show ¬(r < 153) from by omega), if_neg (show ¬(r < 184) from by omega), if_neg (show ¬(r < 214) from by omega), if_neg (show ¬(r < 245) from by omega), if_neg (show ¬(r < 275) from by omega), if_neg (show ¬(r < 306) from by omega), if_neg (show ¬(r < 337) from by omega)]

lemma find_month_bounds (r : Int) : 0 ≤ find_month r ∧ find_month r ≤ 11 := by
  unfold find_month
  by_cases h1 : r < 31
  · rw [if_pos h1]; omega
  all_goals rw [if_neg h1]
  by_cases h2 : r < 61
  · rw [if_pos h2]; omega
  all_goals rw [if_neg h2]
  by_cases h3 : r < 92
  · rw [if_pos h3]; omega
  all_goals rw [if_neg h3]
  by_cases h4 : r < 122
  · rw [if_pos h4]; omega
  all_goals rw [if_neg h4]
  by_cases h5 : r < 153
  · rw [if_pos h5]; omega
  all_goals rw [if_neg h5]
  by_cases h6 : r < 184
  · rw [if_pos h6]; omega
  all_goals rw [if_neg h6]
  by_cases h7 : r < 214
  · rw [if_pos h7]; omega
  all_goals rw [if_neg h7]
  by_cases h8 : r < 245
  · rw [if_pos h8]; omega
  all_goals rw [if_neg h8]
  by_cases h9 : r < 275
  · rw [if_pos h9]; omega
  all_goals rw [if_neg h9]
  by_cases h10 : r < 306
  · rw [if_pos h10]; omega
  all_goals rw [if_neg h10]
  by_cases h11 : r < 337
  · rw [if_pos h11]; omega
  all_goals rw [if_neg h11]
  omega

lemma from_julian_day_number_eq (cal : CalendarKind) (j y r : Int)
    (he : reduce_periods (leapyear_periods cal) (0, j - year_julian_day_number cal 0) = (y, r)) :
    from_julian_day_number cal j =
      if find_month r + 3 > 12
      then ⟨cal, if y + 1 ≤ 0 then y + 1 - 1 else y + 1, find_month r + 3 - 12,
            r - days_before_month (find_month r) + 1⟩
      else ⟨cal, if y ≤ 0 then y - 1 else y, find_month r + 3,
            r - days_before_month (find_month r) + 1⟩ := by
  simp only [from_julian_day_number, he]
  by_cases h : find_month r + 3 > 12
  · rw [if_pos h, if_pos h]
  · rw [if_neg h, if_neg h]

/-- C2: for every integer `j` and each of the two calendars,
`to_julian_day_number(from_julian_day_number(j)) == j`. -/
theorem round_trip_jdn_date_jdn (cal : CalendarKind) (j : Int) :
    to_julian_day_number (from_julian_day_number cal j) = j := by
  obtain ⟨y, r, he, h0, h1, hleap, hsum⟩ := reduce_spec cal (j - year_julian_day_number cal 0)
  obtain ⟨hm0, hm11⟩ := find_month_bounds r
  rw [from_julian_day_number_eq cal j y r he]
  by_cases hw : find_month r + 3 > 12
  · rw [if_pos hw]
    simp only [to_julian_day_number]
    rw [if_pos (show (find_month r + 3 - 12 : Int) - 3 < 0 by omega),
      if_pos (show (find_month r + 3 - 12 : Int) - 3 < 0 by omega),
      normalize_unnormalize, add_sub_cancel_right,
      show find_month r + 3 - 12 - 3 + 12 = find_month r from by ring]
    omega
  · rw [if_neg hw]
    simp only [to_julian_day_number]
    rw [if_neg (show ¬((find_month r + 3 : Int) - 3 < 0) by omega),
      if_neg (show ¬((find_month r + 3 : Int) - 3 < 0) by omega),
      normalize_unnormalize,
      show find_month r + 3 - 3 = find_month r from by ring]
    omega

lemma valid_date_iff (cal : CalendarKind) (year month day : Int) :
    valid_date cal year month day = true ↔
      year ≠ 0 ∧ 1 ≤ month ∧ month ≤ 12 ∧ 1 ≤ day ∧ day ≤ month_length cal year month := by
  simp [valid_date]

lemma month_length_const (cal : CalendarKind) (year month : Int) (h2 : month ≠ 2) :
    month_length cal year month =
      if month = 4 ∨ month = 6 ∨ month = 9 ∨ month = 11 then 30 else 31 := by
  unfold month_length
  rw [if_neg h2]

lemma month_length_feb (cal : CalendarKind) (year : Int) :
    month_length cal year 2 = if is_leapyear cal year then 29 else 28 := by
  unfold month_length
  rw [if_pos rfl]

lemma find_month_eq_0 (r : Int) (h1 : 0 ≤ r) (h2 : r < 31) :
    find_month r = 0 :=
  find_month_eq r 0 (Or.inl ⟨rfl, h1, h2⟩)

lemma find_month_eq_1 (r : Int) (h1 : 31 ≤ r) (h2 : r < 61) :
    find_month r = 1 :=
  find_month_eq r 1 (Or.inr (Or.inl ⟨rfl, h1, h2⟩))

lemma find_month_eq_2 (r : Int) (h1 : 61 ≤ r) (h2 : r < 92) :
    find_month r = 2 :=
  find_month_eq r 2 (Or.inr (Or.inr (Or.inl ⟨rfl, h1, h2⟩)))

lemma find_month_eq_3 (r : Int) (h1 : 92 ≤ r) (h2 : r < 122) :
    find_month r = 3 :=
  find_month_eq r 3 (Or.inr (Or.inr (Or.inr (Or.inl ⟨rfl, h1, h2⟩))))

lemma find_month_eq_4 (r : Int) (h1 : 122 ≤ r) (h2 : r < 153) :
    find_month r = 4 :=
  find_month_eq r 4 (Or.inr (Or.inr (Or.inr (Or.inr (Or.inl ⟨rfl, h1, h2⟩)))))

lemma find_month_eq_5 (r : Int) (h1 : 153 ≤ r) (h2 : r < 184) :
    find_month r = 5 :=
  find_month_eq r 5 (Or.inr (Or.inr (Or.inr (Or.inr (Or.inr (Or.inl ⟨rfl, h1, h2⟩))))))

lemma find_month_eq_6 (r : Int) (h1 : 184 ≤ r) (h2 : r < 214) :
    find_month r = 6 :=
  find_month_eq r 6 (Or.inr (Or.inr (Or.inr (Or.inr (Or.inr (Or.inr (Or.inl ⟨rfl, h1, h2⟩)))))))

lemma find_month_eq_7 (r : Int) (h1 : 214 ≤ r) (h2 : r < 245) :
    find_month r = 7 :=
  find_month_eq r 7 (Or.inr (Or.inr (Or.inr (Or.inr (Or.inr (Or.inr (Or.inr (Or.inl ⟨rfl, h1, h2⟩))))))))

lemma find_month_eq_8 (r : Int) (h1 : 245 ≤ r) (h2 : r < 275) :
    find_month r = 8 :=
  find_month_eq r 8 (Or.inr (Or.inr (Or.inr (Or.inr (Or.inr (Or.inr (Or.inr (Or.inr (Or.inl ⟨rfl, h1, h2⟩)))))))))

lemma find_month_eq_9 (r : Int) (h1 : 275 ≤ r) (h2 : r < 306) :
    find_month r = 9 :=
  find_month_eq r 9 (Or.inr (Or.inr (Or.inr (Or.inr (Or.inr (Or.inr (Or.inr (Or.inr (Or.inr (Or.inl ⟨rfl, h1, h2⟩))))))))))

lemma find_month_eq_10 (r : Int) (h1 : 306 ≤ r) (h2 : r < 337) :
    find_month r = 10 :=
  find_month_eq r 10 (Or.inr (Or.inr (Or.inr (Or.inr (Or.inr (Or.inr (Or.inr (Or.inr (Or.inr (Or.inr (Or.inl ⟨rfl, h1, h2⟩)))))))))))

lemma find_month_eq_11 (r : Int) (h1 : 337 ≤ r) :
    find_month r = 11 :=
  find_month_eq r 11 (Or.inr (Or.inr (Or.inr (Or.inr (Or.inr (Or.inr (Or.inr (Or.inr (Or.inr (Or.inr (Or.inr (⟨rfl, h1⟩))))))))))))

/-- C5: for every integer `julian_day_number` and each calendar,
`from_julian_day_number` returns a date without raising: the final
construction's validity check (year nonzero, month in 1..12, day in
1..length_of_month) always passes, so JDN-to-date conversion has no error
path for any integer input. -/
theorem from_julian_day_number_total_valid (cal : CalendarKind) (julian_day_number : Int) :
    Valid (from_julian_day_number cal julian_day_number) := by
  obtain ⟨y, r, he, h0, h1, hleap, hsum⟩ :=
    reduce_spec cal (julian_day_number - year_julian_day_number cal 0)
  have hv : (0 ≤ r ∧ r < 31) ∨ (31 ≤ r ∧ r < 61) ∨ (61 ≤ r ∧ r < 92) ∨ (92 ≤ r ∧ r < 122) ∨
      (122 ≤ r ∧ r < 153) ∨ (153 ≤ r ∧ r < 184) ∨ (184 ≤ r ∧ r < 214) ∨ (214 ≤ r ∧ r < 245) ∨
      (245 ≤ r ∧ r < 275) ∨ (275 ≤ r ∧ r < 306) ∨ (306 ≤ r ∧ r < 337) ∨ (337 ≤ r ∧ r ≤ 365) := by
    clear hleap he hsum
    omega
  rw [from_julian_day_number_eq cal julian_day_number y r he]
  rcases hv with hv | hv | hv | hv | hv | hv | hv | hv | hv | hv | hv | hv
  · rw [find_month_eq_0 r hv.1 hv.2,
      if_neg (show ¬((0 : Int) + 3 > 12) from by norm_num)]
    simp only [Valid, valid_date_iff]
    rw [show days_before_month 0 = (0 : Int) from rfl]
    refine ⟨by split_ifs <;> omega, by norm_num, by norm_num, by omega, ?_⟩
    rw [show (0 : Int) + 3 = 3 from by norm_num,
      month_length_const cal _ 3 (by norm_num)]
    split_ifs <;> omega
  · rw [find_month_eq_1 r hv.1 hv.2,
      if_neg (show ¬((1 : Int) + 3 > 12) from by norm_num)]
    simp only [Valid, valid_date_iff]
    rw [show days_before_month 1 = (31 : Int) from rfl]
    refine ⟨by split_ifs <;> omega, by norm_num, by norm_num, by omega, ?_⟩
    rw [show (1 : Int) + 3 = 4 from by norm_num,
      month_length_const cal _ 4 (by norm_num)]
    split_ifs <;> omega
  · rw [find_month_eq_2 r hv.1 hv.2,
      if_neg (show ¬((2 : Int) + 3 > 12) from by norm_num)]
    simp only [Valid, valid_date_iff]
    rw [show days_before_month 2 = (61 : Int) from rfl]
    refine ⟨by split_ifs <;> omega, by norm_num, by norm_num, by omega, ?_⟩
    rw [show (2 : Int) + 3 = 5 from by norm_num,
      month_length_const cal _ 5 (by norm_num)]
    split_ifs <;> omega
  · rw [find_month_eq_3 r hv.1 hv.2,
      if_neg (show ¬((3 : Int) + 3 > 12) from by norm_num)]
    simp only [Valid, valid_date_iff]
    rw [show days_before_month 3 = (92 : Int) from rfl]
    refine ⟨by split_ifs <;> omega, by norm_num, by norm_num, by omega, ?_⟩
    rw [show (3 : Int) + 3 = 6 from by norm_num,
      month_length_const cal _ 6 (by norm_num)]
    split_ifs <;> omega
  · rw [find_month_eq_4 r hv.1 hv.2,
      if_neg (show ¬((4 : Int) + 3 > 12) from by norm_num)]
    simp only [Valid, valid_date_iff]
    rw [show days_before_month 4 = (122 : Int) from rfl]
    refine ⟨by split_ifs <;> omega, by norm_num, by norm_num, by omega, ?_⟩
    rw [show (4 : Int) + 3 = 7 from by norm_num,
      month_length_const cal _ 7 (by norm_num)]
    split_ifs <;> omega
  · rw [find_month_eq_5 r hv.1 hv.2,
      if_neg (show ¬((5 : Int) + 3 > 12) from by norm_num)]
    simp only [Valid, valid_date_iff]
    rw [show days_before_month 5 = (153 : Int) from rfl]
    refine ⟨by split_ifs <;> omega, by norm_num, by norm_num, by omega, ?_⟩
    rw [show (5 : Int) + 3 = 8 from by norm_num,
      month_length_const cal _ 8 (by norm_num)]
    split_ifs <;> omega
  · rw [find_month_eq_6 r hv.1 hv.2,
      if_neg (show ¬((6 : Int) + 3 > 12) from by norm_num)]
    simp only [Valid, valid_date_iff]
    rw [show days_before_month 6 = (184 : Int) from rfl]
    refine ⟨by split_ifs <;> omega, by norm_num, by norm_num, by omega, ?_⟩
    rw [show (6 : Int) + 3 = 9 from by norm_num,
      month_length_const cal _ 9 (by norm_num)]
    split_ifs <;> omega
  · rw [find_month_eq_7 r hv.1 hv.2,
      if_neg (show ¬((7 : Int) + 3 > 12) from by norm_num)]
    simp only [Valid, valid_date_iff]
    rw [show days_before_month 7 = (214 : Int) from rfl]
    refine ⟨by split_ifs <;> omega, by norm_num, by norm_num, by omega, ?_⟩
    rw [show (7 : Int) + 3 = 10 from by norm_num,
      month_length_const cal _ 10 (by norm_num)]
    split_ifs <;> omega
  · rw [find_month_eq_8 r hv.1 hv.2,
      if_neg (show ¬((8 : Int) + 3 > 12) from by norm_num)]
    simp only [Valid, valid_date_iff]
    rw [show days_before_month 8 = (245 : Int) from rfl]
    refine ⟨by split_ifs <;> omega, by norm_num, by norm_num, by omega, ?_⟩
    rw [show (8 : Int) + 3 = 11 from by norm_num,
      month_length_const cal _ 11 (by norm_num)]
    split_ifs <;> omega
  · rw [find_month_eq_9 r hv.1 hv.2,
      if_neg (show ¬((9 : Int) + 3 > 12) from by norm_num)]
    simp only [Valid, valid_date_iff]
    rw [show days_before_month 9 = (275 : Int) from rfl]
    refine ⟨by split_ifs <;> omega, by norm_num, by norm_num, by omega, ?_⟩
    rw [show (9 : Int) + 3 = 12 from by norm_num,
      month_length_const cal _ 12 (by norm_num)]
    split_ifs <;> omega
  · rw [find_month_eq_10 r hv.1 hv.2,
      if_pos (show ((10 : Int) + 3 > 12) from by norm_num)]
    simp only [Valid, valid_date_iff]
    rw [show days_before_month 10 = (306 : Int) from rfl]
    refine ⟨by split_ifs <;> omega, by norm_num, by norm_num, by omega, ?_⟩
    rw [show ((10 : Int) + 3 - 12) = 1 from by norm_num,
      month_length_const cal _ 1 (by norm_num)]
    split_ifs <;> omega
  · rw [find_month_eq_11 r hv.1,
      if_pos (show ((11 : Int) + 3 > 12) from by norm_num)]
    simp only [Valid, valid_date_iff]
    rw [show days_before_month 11 = (337 : Int) from rfl]
    refine ⟨by split_ifs <;> omega, by norm_num, by norm_num, by omega, ?_⟩
    rw [show ((11 : Int) + 3 - 12) = 2 from by norm_num, month_length_feb]
    unfold is_leapyear
    rw [normalize_unnormalize]
    rcases hb : leapyear_rule cal (y + 1)
    · have hr365 : r ≠ 365 := by
        intro hx
        simp [hleap hx] at hb
      rw [if_neg (by simp [hb])]
      omega
    · rw [if_pos (by simp [hb])]
      omega

/-- C1: for every valid date `d` of either calendar (any nonzero year),
`from_julian_day_number(to_julian_day_number(d))` equals `d` field-wise:
same year, same month and same day. -/
theorem round_trip_date_jdn_date (d : CalendarDate) (h : Valid d) :
    (from_julian_day_number d.cal (to_julian_day_number d)).year = d.year ∧
    (from_julian_day_number d.cal (to_julian_day_number d)).month = d.month ∧
    (from_julian_day_number d.cal (to_julian_day_number d)).day = d.day := by
  obtain ⟨cal, year, month, day⟩ := d
  simp only [Valid, valid_date_iff] at h
  obtain ⟨hy, hm1, hm12, hd1, hdle⟩ := h
  interval_cases month
  · rw [month_length_const cal year 1 (by norm_num), if_neg (by norm_num)] at hdle
    have hc := year_offset_leap_consistent cal (normalize_year year - 1)
    rw [show normalize_year year - 1 + 1 = normalize_year year from by ring] at hc
    have hb : 306 + (day - 1) < year_julian_day_number cal (normalize_year year - 1 + 1) -
        year_julian_day_number cal (normalize_year year - 1) := by
      rw [show normalize_year year - 1 + 1 = normalize_year year from by ring]
      split_ifs at hc <;> omega
    simp only [to_julian_day_number]
    rw [if_pos (show ((1 : Int) - 3 < 0) from by norm_num),
      if_pos (show ((1 : Int) - 3 < 0) from by norm_num),
      show ((1 : Int) - 3 + 12) = (10 : Int) from by norm_num,
      show days_before_month (10 : Int) = (306 : Int) from rfl]
    have he := reduce_exact cal (normalize_year year - 1) (306 + (day - 1)) (by omega) hb
    rw [show year_julian_day_number cal (normalize_year year - 1) + (306 + (day - 1)) -
          year_julian_day_number cal 0 =
        year_julian_day_number cal (normalize_year year - 1) + 306 + (day - 1) -
          year_julian_day_number cal 0 from by ring] at he
    rw [from_julian_day_number_eq cal _ _ _ he,
      find_month_eq_10 (306 + (day - 1)) (by omega) (by omega),
      if_pos (show ((10 : Int) + 3 > 12) from by norm_num)]
    refine ⟨?_, by norm_num, ?_⟩
    · dsimp only
      rw [show normalize_year year - 1 + 1 = normalize_year year from by ring,
        unnormalize_normalize year hy]
    · dsimp only
      rw [show days_before_month (10 : Int) = (306 : Int) from rfl]
      ring
  · rw [month_length_feb cal year] at hdle
    unfold is_leapyear at hdle
    have hc := year_offset_leap_consistent cal (normalize_year year - 1)
    rw [show normalize_year year - 1 + 1 = normalize_year year from by ring] at hc
    have hb : 337 + (day - 1) < year_julian_day_number cal (normalize_year year - 1 + 1) -
        year_julian_day_number cal (normalize_year year - 1) := by
      rw [show normalize_year year - 1 + 1 = normalize_year year from by ring]
      split_ifs at hc hdle <;> omega
    simp only [to_julian_day_number]
    rw [if_pos (show ((2 : Int) - 3 < 0) from by norm_num),
      if_pos (show ((2 : Int) - 3 < 0) from by norm_num),
      show ((2 : Int) - 3 + 12) = (11 : Int) from by norm_num,
      show days_before_month (11 : Int) = (337 : Int) from rfl]
    have he := reduce_exact cal (normalize_year year - 1) (337 + (day - 1)) (by omega) hb
    rw [show year_julian_day_number cal (normalize_year year - 1) + (337 + (day - 1)) -
          year_julian_day_number cal 0 =
        year_julian_day_number cal (normalize_year year - 1) + 337 + (day - 1) -
          year_julian_day_number cal 0 from by ring] at he
    rw [from_julian_day_number_eq cal _ _ _ he,
      find_month_eq_11 (337 + (day - 1)) (by omega),
      if_pos (show ((11 : Int) + 3 > 12) from by norm_num)]
    refine ⟨?_, by norm_num, ?_⟩
    · dsimp only
      rw [show normalize_year year - 1 + 1 = normalize_year year from by ring,
        unnormalize_normalize year hy]
    · dsimp only
      rw [show days_before_month (11 : Int) = (337 : Int) from rfl]
      ring
  · rw [month_length_const cal year 3 (by norm_num), if_neg (by norm_num)] at hdle
    simp only [to_julian_day_number]
    rw [if_neg (show ¬((3 : Int) - 3 < 0) from by norm_num),
      if_neg (show ¬((3 : Int) - 3 < 0) from by norm_num),
      show days_before_month ((3 : Int) - 3) = (0 : Int) from rfl]
    have hc := year_offset_leap_consistent cal (normalize_year year)
    have hb : 0 + (day - 1) < year_julian_day_number cal (normalize_year year + 1) -
        year_julian_day_number cal (normalize_year year) := by
      split_ifs at hc <;> omega
    have he := reduce_exact cal (normalize_year year) (0 + (day - 1)) (by omega) hb
    rw [show year_julian_day_number cal (normalize_year year) + (0 + (day - 1)) -
          year_julian_day_number cal 0 =
        year_julian_day_number cal (normalize_year year) + 0 + (day - 1) -
          year_julian_day_number cal 0 from by ring] at he
    rw [from_julian_day_number_eq cal _ _ _ he,
      find_month_eq_0 (0 + (day - 1)) (by omega) (by omega),
      if_neg (show ¬((0 : Int) + 3 > 12) from by norm_num)]
    refine ⟨?_, by norm_num, ?_⟩
    · dsimp only
      rw [unnormalize_normalize year hy]
    · dsimp only
      rw [show days_before_month (0 : Int) = (0 : Int) from rfl]
      ring
  · rw [month_length_const cal year 4 (by norm_num), if_pos (by norm_num)] at hdle
    simp only [to_julian_day_number]
    rw [if_neg (show ¬((4 : Int) - 3 < 0) from by norm_num),
      if_neg (show ¬((4 : Int) - 3 < 0) from by norm_num),
      show days_before_month ((4 : Int) - 3) = (31 : Int) from rfl]
    have hc := year_offset_leap_consistent cal (normalize_year year)
    have hb : 31 + (day - 1) < year_julian_day_number cal (normalize_year year + 1) -
        year_julian_day_number cal (normalize_year year) := by
      split_ifs at hc <;> omega
    have he := reduce_exact cal (normalize_year year) (31 + (day - 1)) (by omega) hb
    rw [show year_julian_day_number cal (normalize_year year) + (31 + (day - 1)) -
          year_julian_day_number cal 0 =
        year_julian_day_number cal (normalize_year year) + 31 + (day - 1) -
          year_julian_day_number cal 0 from by ring] at he
    rw [from_julian_day_number_eq cal _ _ _ he,
      find_month_eq_1 (31 + (day - 1)) (by omega) (by omega),
      if_neg (show ¬((1 : Int) + 3 > 12) from by norm_num)]
    refine ⟨?_, by norm_num, ?_⟩
    · dsimp only
      rw [unnormalize_normalize year hy]
    · dsimp only
      rw [show days_before_month (1 : Int) = (31 : Int) from rfl]
      ring
  · rw [month_length_const cal year 5 (by norm_num), if_neg (by norm_num)] at hdle
    simp only [to_julian_day_number]
    rw [if_neg (show ¬((5 : Int) - 3 < 0) from by norm_num),
      if_neg (show ¬((5 : Int) - 3 < 0) from by norm_num),
      show days_before_month ((5 : Int) - 3) = (61 : Int) from rfl]
    have hc := year_offset_leap_consistent cal (normalize_year year)
    have hb : 61 + (day - 1) < year_julian_day_number cal (normalize_year year + 1) -
        year_julian_day_number cal (normalize_year year) := by
      split_ifs at hc <;> omega
    have he := reduce_exact cal (normalize_year year) (61 + (day - 1)) (by omega) hb
    rw [show year_julian_day_number cal (normalize_year year) + (61 + (day - 1)) -
          year_julian_day_number cal 0 =
        year_julian_day_number cal (normalize_year year) + 61 + (day - 1) -
          year_julian_day_number cal 0 from by ring] at he
    rw [from_julian_day_number_eq cal _ _ _ he,
      find_month_eq_2 (61 + (day - 1)) (by omega) (by omega),
      if_neg (show ¬((2 : Int) + 3 > 12) from by norm_num)]
    refine ⟨?_, by norm_num, ?_⟩
    · dsimp only
      rw [unnormalize_normalize year hy]
    · dsimp only
      rw [show days_before_month (2 : Int) = (61 : Int) from rfl]
      ring
  · rw [month_length_const cal year 6 (by norm_num), if_pos (by norm_num)] at hdle
    simp only [to_julian_day_number]
    rw [if_neg (show ¬((6 : Int) - 3 < 0) from by norm_num),
      if_neg (show ¬((6 : Int) - 3 < 0) from by norm_num),
      show days_before_month ((6 : Int) - 3) = (92 : Int) from rfl]
    have hc := year_offset_leap_consistent cal (normalize_year year)
    have hb : 92 + (day - 1) < year_julian_day_number cal (normalize_year year + 1) -
        year_julian_day_number cal (normalize_year year) := by
      split_ifs at hc <;> omega
    have he := reduce_exact cal (normalize_year year) (92 + (day - 1)) (by omega) hb
    rw [show year_julian_day_number cal (normalize_year year) + (92 + (day - 1)) -
          year_julian_day_number cal 0 =
        year_julian_day_number cal (normalize_year year) + 92 + (day - 1) -
          year_julian_day_number cal 0 from by ring] at he
    rw [from_julian_day_number_eq cal _ _ _ he,
      find_month_eq_3 (92 + (day - 1)) (by omega) (by omega),
      if_neg (show ¬((3 : Int) + 3 > 12) from by norm_num)]
    refine ⟨?_, by norm_num, ?_⟩
    · dsimp only
      rw [unnormalize_normalize year hy]
    · dsimp only
      rw [show days_before_month (3 : Int) = (92 : Int) from rfl]
      ring
  · rw [month_length_const cal year 7 (by norm_num), if_neg (by norm_num)] at hdle
    simp only [to_julian_day_number]
    rw [if_neg (show ¬((7 : Int) - 3 < 0) from by norm_num),
      if_neg (show ¬((7 : Int) - 3 < 0) from by norm_num),
      show days_before_month ((7 : Int) - 3) = (122 : Int) from rfl]
    have hc := year_offset_leap_consistent cal (normalize_year year)
    have hb : 122 + (day - 1) < year_julian_day_number cal (normalize_year year + 1) -
        year_julian_day_number cal (normalize_year year) := by
      split_ifs at hc <;> omega
    have he := reduce_exact cal (normalize_year year) (122 + (day - 1)) (by omega) hb
    rw [show year_julian_day_number cal (normalize_year year) + (122 + (day - 1)) -
          year_julian_day_number cal 0 =
        year_julian_day_number cal (normalize_year year) + 122 + (day - 1) -
          year_julian_day_number cal 0 from by ring] at he
    rw [from_julian_day_number_eq cal _ _ _ he,
      find_month_eq_4 (122 + (day - 1)) (by omega) (by omega),
      if_neg (show ¬((4 : Int) + 3 > 12) from by norm_num)]
    refine ⟨?_, by norm_num, ?_⟩
    · dsimp only
      rw [unnormalize_normalize year hy]
    · dsimp only
      rw [show days_before_month (4 : Int) = (122 : Int) from rfl]
      ring
  · rw [month_length_const cal year 8 (by norm_num), if_neg (by norm_num)] at hdle
    simp only [to_julian_day_number]
    rw [if_neg (show ¬((8 : Int) - 3 < 0) from by norm_num),
      if_neg (show ¬((8 : Int) - 3 < 0) from by norm_num),
      show days_before_month ((8 : Int) - 3) = (153 : Int) from rfl]
    have hc := year_offset_leap_consistent cal (normalize_year year)
    have hb : 153 + (day - 1) < year_julian_day_number cal (normalize_year year + 1) -
        year_julian_day_number cal (normalize_year year) := by
      split_ifs at hc <;> omega
    have he := reduce_exact cal (normalize_year year) (153 + (day - 1)) (by omega) hb
    rw [show year_julian_day_number cal (normalize_year year) + (153 + (day - 1)) -
          year_julian_day_number cal 0 =
        year_julian_day_number cal (normalize_year year) + 153 + (day - 1) -
          year_julian_day_number cal 0 from by ring] at he
    rw [from_julian_day_number_eq cal _ _ _ he,
      find_month_eq_5 (153 + (day - 1)) (by omega) (by omega),
      if_neg (show ¬((5 : Int) + 3 > 12) from by norm_num)]
    refine ⟨?_, by norm_num, ?_⟩
    · dsimp only
      rw [unnormalize_normalize year hy]
    · dsimp only
      rw [show days_before_month (5 : Int) = (153 : Int) from rfl]
      ring
  · rw [month_length_const cal year 9 (by norm_num), if_pos (by norm_num)] at hdle
    simp only [to_julian_day_number]
    rw [if_neg (show ¬((9 : Int) - 3 < 0) from by norm_num),
      if_neg (show ¬((9 : Int) - 3 < 0) from by norm_num),
      show days_before_month ((9 : Int) - 3) = (184 : Int) from rfl]
    have hc := year_offset_leap_consistent cal (normalize_year year)
    have hb : 184 + (day - 1) < year_julian_day_number cal (normalize_year year + 1) -
        year_julian_day_number cal (normalize_year year) := by
      split_ifs at hc <;> omega
    have he := reduce_exact cal (normalize_year year) (184 + (day - 1)) (by omega) hb
    rw [show year_julian_day_number cal (normalize_year year) + (184 + (day - 1)) -
          year_julian_day_number cal 0 =
        year_julian_day_number cal (normalize_year year) + 184 + (day - 1) -
          year_julian_day_number cal 0 from by ring] at he
    rw [from_julian_day_number_eq cal _ _ _ he,
      find_month_eq_6 (184 + (day - 1)) (by omega) (by omega),
      if_neg (show ¬((6 : Int) + 3 > 12) from by norm_num)]
    refine ⟨?_, by norm_num, ?_⟩
    · dsimp only
      rw [unnormalize_normalize year hy]
    · dsimp only
      rw [show days_before_month (6 : Int) = (184 : Int) from rfl]
      ring
  · rw [month_length_const cal year 10 (by norm_num), if_neg (by norm_num)] at hdle
    simp only [to_julian_day_number]
    rw [if_neg (show ¬((10 : Int) - 3 < 0) from by norm_num),
      if_neg (show ¬((10 : Int) - 3 < 0) from by norm_num),
      show days_before_month ((10 : Int) - 3) = (214 : Int) from rfl]
    have hc := year_offset_leap_consistent cal (normalize_year year)
    have hb : 214 + (day - 1) < year_julian_day_number cal (normalize_year year + 1) -
        year_julian_day_number cal (normalize_year year) := by
      split_ifs at hc <;> omega
    have he := reduce_exact cal (normalize_year year) (214 + (day - 1)) (by omega) hb
    rw [show year_julian_day_number cal (normalize_year year) + (214 + (day - 1)) -
          year_julian_day_number cal 0 =
        year_julian_day_number cal (normalize_year year) + 214 + (day - 1) -
          year_julian_day_number cal 0 from by ring] at he
    rw [from_julian_day_number_eq cal _ _ _ he,
      find_month_eq_7 (214 + (day - 1)) (by omega) (by omega),
      if_neg (show ¬((7 : Int) + 3 > 12) from by norm_num)]
    refine ⟨?_, by norm_num, ?_⟩
    · dsimp only
      rw [unnormalize_normalize year hy]
    · dsimp only
      rw [show days_before_month (7 : Int) = (214 : Int) from rfl]
      ring
  · rw [month_length_const cal year 11 (by norm_num), if_pos (by norm_num)] at hdle
    simp only [to_julian_day_number]
    rw [if_neg (show ¬((11 : Int) - 3 < 0) from by norm_num),
      if_neg (show ¬((11 : Int) - 3 < 0) from by norm_num),
      show days_before_month ((11 : Int) - 3) = (245 : Int) from rfl]
    have hc := year_offset_leap_consistent cal (normalize_year year)
    have hb : 245 + (day - 1) < year_julian_day_number cal (normalize_year year + 1) -
        year_julian_day_number cal (normalize_year year) := by
      split_ifs at hc <;> omega
    have he := reduce_exact cal (normalize_year year) (245 + (day - 1)) (by omega) hb
    rw [show year_julian_day_number cal (normalize_year year) + (245 + (day - 1)) -
          year_julian_day_number cal 0 =
        year_julian_day_number cal (normalize_year year) + 245 + (day - 1) -
          year_julian_day_number cal 0 from by ring] at he
    rw [from_julian_day_number_eq cal _ _ _ he,
      find_month_eq_8 (245 + (day - 1)) (by omega) (by omega),
      if_neg (show ¬((8 : Int) + 3 > 12) from by norm_num)]
    refine ⟨?_, by norm_num, ?_⟩
    · dsimp only
      rw [unnormalize_normalize year hy]
    · dsimp only
      rw [show days_before_month (8 : Int) = (245 : Int) from rfl]
      ring
  · rw [month_length_const cal year 12 (by norm_num), if_neg (by norm_num)] at hdle
    simp only [to_julian_day_number]
    rw [if_neg (show ¬((12 : Int) - 3 < 0) from by norm_num),
      if_neg (show ¬((12 : Int) - 3 < 0) from by norm_num),
      show days_before_month ((12 : Int) - 3) = (275 : Int) from rfl]
    have hc := year_offset_leap_consistent cal (normalize_year year)
    have hb : 275 + (day - 1) < year_julian_day_number cal (normalize_year year + 1) -
        year_julian_day_number cal (normalize_year year) := by
      split_ifs at hc <;> omega
    have he := reduce_exact cal (normalize_year year) (275 + (day - 1)) (by omega) hb
    rw [show year_julian_day_number cal (normalize_year year) + (275 + (day - 1)) -
          year_julian_day_number cal 0 =
        year_julian_day_number cal (normalize_year year) + 275 + (day - 1) -
          year_julian_day_number cal 0 from by ring] at he
    rw [from_julian_day_number_eq cal _ _ _ he,
      find_month_eq_9 (275 + (day - 1)) (by omega) (by omega),
      if_neg (show ¬((9 : Int) + 3 > 12) from by norm_num)]
    refine ⟨?_, by norm_num, ?_⟩
    · dsimp only
      rw [unnormalize_normalize year hy]
    · dsimp only
      rw [show days_before_month (9 : Int) = (275 : Int) from rfl]
      ring

lemma normalize_next_year (year : Int) (h : year ≠ 0) :
    normalize_year ((if year = -1 then 0 else year) + 1) = normalize_year year + 1 := by
  unfold normalize_year
  split_ifs <;> omega

/-- C3: for every valid date `d` of either calendar, the successor
operation (`__next__`) yields a date whose Julian day number is exactly one
more than `d`'s, and in particular the successor of
`JulianCalendarDate(-1, 12, 31)` is `JulianCalendarDate(1, 1, 1)`, skipping
the nonexistent year 0. -/
theorem successor_jdn_plus_one (d : CalendarDate) (h : Valid d) :
    to_julian_day_number (next_date d) = to_julian_day_number d + 1 ∧
    next_date ⟨CalendarKind.julian, -1, 12, 31⟩ = ⟨CalendarKind.julian, 1, 1, 1⟩ := by
  refine ⟨?_, by decide⟩
  obtain ⟨cal, year, month, day⟩ := d
  simp only [Valid, valid_date_iff] at h
  obtain ⟨hy, hm1, hm12, hd1, hdle⟩ := h
  by_cases hend : day = month_length cal year month
  case neg =>
    simp only [next_date]
    rw [if_neg hend]
    simp only [to_julian_day_number]
    omega
  case pos =>
    by_cases h12 : month = 12
    case pos =>
      subst h12
      simp only [next_date]
      rw [if_pos hend, if_true]
      rw [month_length_const cal year 12 (by norm_num), if_neg (by norm_num)] at hend
      simp only [to_julian_day_number]
      rw [if_pos (show ((0 : Int) + 1 - 3 < 0) from by norm_num),
        if_pos (show ((0 : Int) + 1 - 3 < 0) from by norm_num),
        show ((0 : Int) + 1 - 3 + 12) = 10 from by norm_num,
        show days_before_month (10 : Int) = (306 : Int) from rfl,
        normalize_next_year year hy, add_sub_cancel_right,
        if_neg (show ¬((12 : Int) - 3 < 0) from by norm_num),
        if_neg (show ¬((12 : Int) - 3 < 0) from by norm_num),
        show days_before_month ((12 : Int) - 3) = (275 : Int) from rfl]
      omega
    case neg =>
      have hm11 : month ≤ 11 := by omega
      simp only [next_date]
      rw [if_pos hend, if_neg h12]
      interval_cases month
      · rw [month_length_const cal year 1 (by norm_num), if_neg (by norm_num)] at hend
        simp only [to_julian_day_number]
        rw [if_pos (show ((1 : Int) + 1 - 3 < 0) from by norm_num),
          if_pos (show ((1 : Int) + 1 - 3 < 0) from by norm_num),
          show ((1 : Int) + 1 - 3 + 12) = 11 from by norm_num,
          show days_before_month (11 : Int) = (337 : Int) from rfl,
          if_pos (show ((1 : Int) - 3 < 0) from by norm_num),
          if_pos (show ((1 : Int) - 3 < 0) from by norm_num),
          show ((1 : Int) - 3 + 12) = 10 from by norm_num,
          show days_before_month (10 : Int) = (306 : Int) from rfl]
        omega
      · rw [month_length_feb cal year] at hend
        unfold is_leapyear at hend
        simp only [to_julian_day_number]
        rw [if_neg (show ¬((2 : Int) + 1 - 3 < 0) from by norm_num),
          if_neg (show ¬((2 : Int) + 1 - 3 < 0) from by norm_num),
          show days_before_month ((2 : Int) + 1 - 3) = (0 : Int) from rfl,
          if_pos (show ((2 : Int) - 3 < 0) from by norm_num),
          if_pos (show ((2 : Int) - 3 < 0) from by norm_num),
          show ((2 : Int) - 3 + 12) = 11 from by norm_num,
          show days_before_month (11 : Int) = (337 : Int) from rfl]
        have hc := year_offset_leap_consistent cal (normalize_year year - 1)
        rw [show normalize_year year - 1 + 1 = normalize_year year from by ring] at hc
        split_ifs at hc hend <;> omega
      · rw [month_length_const cal year 3 (by norm_num), if_neg (by norm_num)] at hend
        simp only [to_julian_day_number]
        rw [if_neg (show ¬((3 : Int) + 1 - 3 < 0) from by norm_num),
          if_neg (show ¬((3 : Int) + 1 - 3 < 0) from by norm_num),
          show days_before_month ((3 : Int) + 1 - 3) = (31 : Int) from rfl,
          if_neg (show ¬((3 : Int) - 3 < 0) from by norm_num),
          if_neg (show ¬((3 : Int) - 3 < 0) from by norm_num),
          show days_before_month ((3 : Int) - 3) = (0 : Int) from rfl]
        omega
      · rw [month_length_const cal year 4 (by norm_num), if_pos (by norm_num)] at hend
        simp only [to_julian_day_number]
        rw [if_neg (show ¬((4 : Int) + 1 - 3 < 0) from by norm_num),
          if_neg (show ¬((4 : Int) + 1 - 3 < 0) from by norm_num),
          show days_before_month ((4 : Int) + 1 - 3) = (61 : Int) from rfl,
          if_neg (show ¬((4 : Int) - 3 < 0) from by norm_num),
          if_neg (show ¬((4 : Int) - 3 < 0) from by norm_num),
          show days_before_month ((4 : Int) - 3) = (31 : Int) from rfl]
        omega
      · rw [month_length_const cal year 5 (by norm_num), if_neg (by norm_num)] at hend
        simp only [to_julian_day_number]
        rw [if_neg (show ¬((5 : Int) + 1 - 3 < 0) from by norm_num),
          if_neg (show ¬((5 : Int) + 1 - 3 < 0) from by norm_num),
          show days_before_month ((5 : Int) + 1 - 3) = (92 : Int) from rfl,
          if_neg (show ¬((5 : Int) - 3 < 0) from by norm_num),
          if_neg (show ¬((5 : Int) - 3 < 0) from by norm_num),
          show days_before_month ((5 : Int) - 3) = (61 : Int) from rfl]
        omega
      · rw [month_length_const cal year 6 (by norm_num), if_pos (by norm_num)] at hend
        simp only [to_julian_day_number]
        rw [if_neg (show ¬((6 : Int) + 1 - 3 < 0) from by norm_num),
          if_neg (show ¬((6 : Int) + 1 - 3 < 0) from by norm_num),
          show days_before_month ((6 : Int) + 1 - 3) = (122 : Int) from rfl,
          if_neg (show ¬((6 : Int) - 3 < 0) from by norm_num),
          if_neg (show ¬((6 : Int) - 3 < 0) from by norm_num),
          show days_before_month ((6 : Int) - 3) = (92 : Int) from rfl]
        omega
      · rw [month_length_const cal year 7 (by norm_num), if_neg (by norm_num)] at hend
        simp only [to_julian_day_number]
        rw [if_neg (show ¬((7 : Int) + 1 - 3 < 0) from by norm_num),
          if_neg (show ¬((7 : Int) + 1 - 3 < 0) from by norm_num),
          show days_before_month ((7 : Int) + 1 - 3) = (153 : Int) from rfl,
          if_neg (show ¬((7 : Int) - 3 < 0) from by norm_num),
          if_neg (show ¬((7 : Int) - 3 < 0) from by norm_num),
          show days_before_month ((7 : Int) - 3) = (122 : Int) from rfl]
        omega
      · rw [month_length_const cal year 8 (by norm_num), if_neg (by norm_num)] at hend
        simp only [to_julian_day_number]
        rw [if_neg (show ¬((8 : Int) + 1 - 3 < 0) from by norm_num),
          if_neg (show ¬((8 : Int) + 1 - 3 < 0) from by norm_num),
          show days_before_month ((8 : Int) + 1 - 3) = (184 : Int) from rfl,
          if_neg (show ¬((8 : Int) - 3 < 0) from by norm_num),
          if_neg (show ¬((8 : Int) - 3 < 0) from by norm_num),
          show days_before_month ((8 : Int) - 3) = (153 : Int) from rfl]
        omega
      · rw [month_length_const cal year 9 (by norm_num), if_pos (by norm_num)] at hend
        simp only [to_julian_day_number]
        rw [if_neg (show ¬((9 : Int) + 1 - 3 < 0) from by norm_num),
          if_neg (show ¬((9 : Int) + 1 - 3 < 0) from by norm_num),
          show days_before_month ((9 : Int) + 1 - 3) = (214 : Int) from rfl,
          if_neg (show ¬((9 : Int) - 3 < 0) from by norm_num),
          if_neg (show ¬((9 : Int) - 3 < 0) from by norm_num),
          show days_before_month ((9 : Int) - 3) = (184 : Int) from rfl]
        omega
      · rw [month_length_const cal year 10 (by norm_num), if_neg (by norm_num)] at hend
        simp only [to_julian_day_number]
        rw [if_neg (show ¬((10 : Int) + 1 - 3 < 0) from by norm_num),
          if_neg (show ¬((10 : Int) + 1 - 3 < 0) from by norm_num),
          show days_before_month ((10 : Int) + 1 - 3) = (245 : Int) from rfl,
          if_neg (show ¬((10 : Int) - 3 < 0) from by norm_num),
          if_neg (show ¬((10 : Int) - 3 < 0) from by norm_num),
          show days_before_month ((10 : Int) - 3) = (214 : Int) from rfl]
        omega
      · rw [month_length_const cal year 11 (by norm_num), if_pos (by norm_num)] at hend
        simp only [to_julian_day_number]
        rw [if_neg (show ¬((11 : Int) + 1 - 3 < 0) from by norm_num),
          if_neg (show ¬((11 : Int) + 1 - 3 < 0) from by norm_num),
          show days_before_month ((11 : Int) + 1 - 3) = (275 : Int) from rfl,
          if_neg (show ¬((11 : Int) - 3 < 0) from by norm_num),
          if_neg (show ¬((11 : Int) - 3 < 0) from by norm_num),
          show days_before_month ((11 : Int) - 3) = (245 : Int) from rfl]
        omega

/-- C4: `JulianCalendarDate(-4713, 1, 1).to_julian_day_number() == 0`,
`GregorianCalendarDate(-4714, 11, 24).to_julian_day_number() == 0`, and the
two dates compare equal under the cross-calendar equality operator (both are
also valid constructible dates). -/
theorem epoch_anchors :
    to_julian_day_number ⟨CalendarKind.julian, -4713, 1, 1⟩ = 0 ∧
    to_julian_day_number ⟨CalendarKind.gregorian, -4714, 11, 24⟩ = 0 ∧
    date_eq ⟨CalendarKind.julian, -4713, 1, 1⟩ ⟨CalendarKind.gregorian, -4714, 11, 24⟩ = true ∧
    Valid ⟨CalendarKind.julian, -4713, 1, 1⟩ ∧
    Valid ⟨CalendarKind.gregorian, -4714, 11, 24⟩ := by
  decide

/-- C6: for any two valid dates `a`, `b`, possibly of different calendars,
each of the six comparison operators returns the truth value of the
corresponding integer comparison of the Julian day numbers; in particular
`JulianCalendarDate(1752, 9, 2) == GregorianCalendarDate(1752, 9, 13)` and
`JulianCalendarDate(1752, 9, 13) == GregorianCalendarDate(1752, 9, 24)`. -/
theorem comparison_matches_jdn (a b : CalendarDate) (ha : Valid a) (hb : Valid b) :
    (date_lt a b = true ↔ to_julian_day_number a < to_julian_day_number b) ∧
    (date_le a b = true ↔ to_julian_day_number a ≤ to_julian_day_number b) ∧
    (date_eq a b = true ↔ to_julian_day_number a = to_julian_day_number b) ∧
    (date_ne a b = true ↔ to_julian_day_number a ≠ to_julian_day_number b) ∧
    (date_gt a b = true ↔ to_julian_day_number a > to_julian_day_number b) ∧
    (date_ge a b = true ↔ to_julian_day_number a ≥ to_julian_day_number b) ∧
    date_eq ⟨CalendarKind.julian, 1752, 9, 2⟩ ⟨CalendarKind.gregorian, 1752, 9, 13⟩ = true ∧
    date_eq ⟨CalendarKind.julian, 1752, 9, 13⟩ ⟨CalendarKind.gregorian, 1752, 9, 24⟩ = true := by
  refine ⟨by simp [date_lt], by simp [date_le], by simp [date_eq], by simp [date_ne],
    by simp [date_gt], by simp [date_ge], by decide, by decide⟩

/-- Witness for the comparison theorem at a concrete pair of valid dates. -/
theorem comparison_matches_jdn_witness :
    date_lt ⟨CalendarKind.julian, 1752, 9, 2⟩ ⟨CalendarKind.gregorian, 1752, 9, 13⟩ = true ↔
      to_julian_day_number ⟨CalendarKind.julian, 1752, 9, 2⟩ <
        to_julian_day_number ⟨CalendarKind.gregorian, 1752, 9, 13⟩ :=
  (comparison_matches_jdn ⟨CalendarKind.julian, 1752, 9, 2⟩
    ⟨CalendarKind.gregorian, 1752, 9, 13⟩ (by decide) (by decide)).1

/-- Witness for the date round-trip theorem at a concrete valid date. -/
theorem round_trip_date_jdn_date_witness :
    (from_julian_day_number CalendarKind.gregorian
      (to_julian_day_number ⟨CalendarKind.gregorian, 2024, 2, 29⟩)).year = 2024 :=
  (round_trip_date_jdn_date ⟨CalendarKind.gregorian, 2024, 2, 29⟩ (by decide)).1

/-- Witness for the successor theorem at a concrete valid date. -/
theorem successor_jdn_plus_one_witness :
    to_julian_day_number (next_date ⟨CalendarKind.julian, -1, 12, 31⟩) =
      to_julian_day_number ⟨CalendarKind.julian, -1, 12, 31⟩ + 1 :=
  (successor_jdn_plus_one ⟨CalendarKind.julian, -1, 12, 31⟩ (by decide)).1

/-- C7: constructing a calendar date with `(year, month, day)` fails
(returns `none`, where the source raises) exactly when `year == 0`, or
`month` is outside 1..12, or `day` is outside `1..length_of_month(year,
month)`; no partial object is produced on failure, and in particular
`month == 13`, `day == 0`, `day == 30` with `month == 2`, and `year == 0`
each fail, for both calendars. -/
theorem init_validation_iff (cal : CalendarKind) (year month day : Int) :
    (mk_date cal year month day = none ↔
      (year = 0 ∨ month < 1 ∨ 12 < month ∨ day < 1 ∨
        ∀ L, length_of_month cal year month = some L → L < day)) ∧
    mk_date cal 2000 13 1 = none ∧ mk_date cal 2000 1 0 = none ∧
    mk_date cal 2000 2 30 = none ∧ mk_date cal 0 1 1 = none := by
  refine ⟨?_, by cases cal <;> decide, by cases cal <;> decide,
    by cases cal <;> decide, by cases cal <;> decide⟩
  unfold mk_date
  split_ifs with hva
  · rw [valid_date_iff] at hva
    obtain ⟨h1, h2, h3, h4, h5⟩ := hva
    constructor
    · intro hcontra
      simp at hcontra
    · intro hr
      rcases hr with hq | hq | hq | hq | hq
      · exact absurd hq h1
      · omega
      · omega
      · omega
      · have hLM := hq (month_length cal year month)
          (by unfold length_of_month; rw [if_pos ⟨h1, h2, h3⟩])
        omega
  · rw [valid_date_iff] at hva
    constructor
    · intro _
      by_cases hz : year = 0
      · exact Or.inl hz
      by_cases hmlo : month < 1
      · exact Or.inr (Or.inl hmlo)
      by_cases hmhi : 12 < month
      · exact Or.inr (Or.inr (Or.inl hmhi))
      by_cases hdlo : day < 1
      · exact Or.inr (Or.inr (Or.inr (Or.inl hdlo)))
      refine Or.inr (Or.inr (Or.inr (Or.inr ?_)))
      intro L hL
      unfold length_of_month at hL
      rw [if_pos ⟨hz, by omega, by omega⟩] at hL
      injection hL with hLe
      omega
    · intro _
      rfl

/-- C8: for every nonzero year, Gregorian `is_leapyear` equals the XOR of
the three divisibility tests on the normalized year, which is equivalent to
the reference rule “divisible by 4 and not by 100, unless also divisible by
400” on the normalized year; moreover Gregorian `is_leapyear` is `true` at
2000 and 1996, `false` at 1900 and 1997, and Julian `is_leapyear(1900)` is
`true`. -/
theorem gregorian_leapyear_spec :
    (∀ year : Int, year ≠ 0 →
      is_leapyear CalendarKind.gregorian year =
        ((is_divisible_by (normalize_year year) 4).xor
          (is_divisible_by (normalize_year year) 100)).xor
          (is_divisible_by (normalize_year year) 400) ∧
      (is_leapyear CalendarKind.gregorian year = true ↔
        (4 ∣ normalize_year year ∧ ¬ (100 ∣ normalize_year year)) ∨
          400 ∣ normalize_year year)) ∧
    is_leapyear CalendarKind.gregorian 2000 = true ∧
    is_leapyear CalendarKind.gregorian 1900 = false ∧
    is_leapyear CalendarKind.gregorian 1996 = true ∧
    is_leapyear CalendarKind.gregorian 1997 = false ∧
    is_leapyear CalendarKind.julian 1900 = true := by
  refine ⟨fun y hy => ⟨rfl, ?_⟩, by decide, by decide, by decide, by decide, by decide⟩
  rw [show is_leapyear CalendarKind.gregorian y =
      leapyear_rule CalendarKind.gregorian (normalize_year y) from rfl, greg_leap_iff]
  omega

/-- C9: `length_of_month(year, month)` fails (returns `none`, where the
source raises) exactly when `year == 0` or `month` is outside 1..12;
otherwise it returns 31 for months {1,3,5,7,8,10,12}, 30 for {4,6,9,11},
and for month 2 returns 29 in leap years and 28 otherwise, for both
calendars. -/
theorem length_of_month_spec (cal : CalendarKind) (year month : Int) :
    (length_of_month cal year month = none ↔ year = 0 ∨ month < 1 ∨ 12 < month) ∧
    (month = 1 ∨ month = 3 ∨ month = 5 ∨ month = 7 ∨ month = 8 ∨ month = 10 ∨ month = 12 →
      year ≠ 0 → length_of_month cal year month = some 31) ∧
    (month = 4 ∨ month = 6 ∨ month = 9 ∨ month = 11 →
      year ≠ 0 → length_of_month cal year month = some 30) ∧
    (month = 2 → year ≠ 0 →
      length_of_month cal year month = some (if is_leapyear cal year then 29 else 28)) := by
  refine ⟨?_, ?_, ?_, ?_⟩
  · unfold length_of_month
    split_ifs with hc
    · constructor
      · intro hcontra
        simp at hcontra
      · intro hq
        exact absurd hq (by omega)
    · constructor
      · intro _
        omega
      · intro _
        rfl
  · intro hm hynz
    unfold length_of_month
    rw [if_pos ⟨hynz, by omega, by omega⟩,
      month_length_const cal year month (by omega), if_neg (by omega)]
  · intro hm hynz
    unfold length_of_month
    rw [if_pos ⟨hynz, by omega, by omega⟩,
      month_length_const cal year month (by omega), if_pos hm]
  · intro hm hynz
    subst hm
    unfold length_of_month
    rw [if_pos ⟨hynz, by norm_num, by norm_num⟩, month_length_feb]
